import Mathlib

/-!
Verification development for the Jira ticket-triage pipeline
(`django/api/utils/jira_utils.py` and `django/api/utils/model_utils.py`).

The Python code is shallowly embedded: pure string manipulation becomes
Lean functions on `String`/`List Char`; the side-effecting orchestration
(`JiraAgentManager._triage_tool` and its helpers) is embedded as functions
that take an oracle environment (the LLM and the Jira HTTP backend) and
return the trace of externally observable calls (relatedness checks,
issue links, metadata synthesis, comment posts); Python functions that
may return `None` become `Option`-valued functions, and Python `try`
blocks that convert exceptions into sentinel returns are embedded as the
corresponding total functions (an exception raised inside a callee and
swallowed there surfaces as the callee's `none`/`false` result, exactly
as the Python caller observes it).
-/

/-! ## Tag extraction (`jira_utils.extract_tag_helper`)

The Python code runs `re.search(f'<{tag}>(.*?)<{tag}>', text, re.DOTALL)`.
For a tag whose marker `<tag>` is treated as a literal string (the tags
the program uses contain no regex metacharacters, and the specification
fixes the literal-string reading), leftmost-shortest regex semantics are:
find the least index `i` at which the marker occurs such that the marker
also occurs at some index `j ≥ i + |marker|`; take the least such `j`;
the extracted group is the text strictly between the two markers.
Because any occurrence at an index `i' > i` would make any close marker
for `i'` also a close marker for `i`, the least viable `i` is simply the
first occurrence of the marker, and the close is the first occurrence in
the remainder after it. `firstOcc` below computes first occurrences. -/

/-- `beginsWith pat s` is true when `pat` is an initial segment of `s`. -/
def beginsWith : List Char → List Char → Bool
  | [], _ => true
  | _ :: _, [] => false
  | p :: ps, c :: cs => p == c && beginsWith ps cs

/-- Index of the first occurrence of the (nonempty) pattern `m` in `s`. -/
def firstOcc (m : List Char) : List Char → Option Nat
  | [] => none
  | c :: rest =>
    if beginsWith m (c :: rest) then some 0
    else (firstOcc m rest).map (· + 1)

/-- Embeds `jira_utils.extract_tag_helper`: the first substring of `text`
strictly between two occurrences of the literal marker `<tag>`, or `none`
when no such pair of occurrences exists (the regex finds no match). -/
def extract_tag_helper (text : String) (tag : String := "related") : Option String :=
  let m := ("<" ++ tag ++ ">").toList
  let s := text.toList
  match firstOcc m s with
  | none => none
  | some i =>
    let rest := s.drop (i + m.length)
    match firstOcc m rest with
    | none => none
    | some j => some (String.mk (rest.take j))

/-- The spec's `wrap`: surround `a` with the literal open/close markers
for tag `t` (`<t>...<t>`, the same string on both sides). -/
def wrap (a t : String) : String :=
  "<" ++ t ++ ">" ++ a ++ "<" ++ t ++ ">"

example : extract_tag_helper "abc <related>True<related> xyz" "related" = some "True" := by decide
example : extract_tag_helper "no tags here" "related" = none := by decide
example : extract_tag_helper "<t>line1\nline2<t>" "t" = some "line1\nline2" := by decide
example : extract_tag_helper "<t>a<t>b<t>" "t" = some "a" := by decide
example : extract_tag_helper (wrap "<t>" "t") "t" = some "" := by decide

/-! ## Triage orchestration (`model_utils.JiraAgentManager`)

The orchestrator's collaborators are abstracted into an oracle `Env`:
`get_all_tickets` is the result of `jira_utils.get_all_tickets()` (the
open-ticket corpus as an association list in dict iteration order, or
`none` when the fetch failed), `get_ticket_data` is
`jira_utils.get_ticket_data`, and `llm_linking` / `llm_product` are the
`run_llm` results of the two `LLMTask` instances (`none` models both an
absent answer and an exception raised by the LLM call, which `run_llm`
catches and converts to `None`). The embedding covers the behavior of a
successfully initialized `JiraAgentManager` (both models present), which
`_load_configuration` guarantees for every constructed instance.

The observable side effects of one triage run are collected as a trace
of `Event`s in program order: `check p c` is a dispatched invocation of
`_llm_check_ticket_match` comparing the primary ticket `p` with
candidate `c`; `link p c` a call to `jira_utils.link_jira_issue p c`;
`synthesize d` the metadata LLM invocation on the primary ticket's text
`d`; `comment k t` a call to `jira_utils.add_jira_comment k t`. The
`ThreadPoolExecutor.map` fan-out submits one task per corpus entry and
the surrounding `with` block joins all of them before the orchestrator
proceeds, so the trace lists the relatedness phase's events (in corpus
order, one interleaving of the pool) followed by the metadata phase. -/

/-- Oracle for the orchestrator's external collaborators. -/
structure Env where
  get_all_tickets : Option (List (String × String))
  get_ticket_data : String → Option (String × String)
  llm_linking : String → Option String
  llm_product : String → Option String

/-- Externally observable calls made during one triage run. -/
inductive Event where
  | check (primary candidate : String)
  | link (primary candidate : String)
  | synthesize (text : String)
  | comment (key text : String)
deriving DecidableEq

/-- True exactly on relatedness-check dispatch events. -/
def Event.isCheck : Event → Bool
  | .check _ _ => true
  | _ => false

/-- True exactly on issue-link events. -/
def Event.isLink : Event → Bool
  | .link _ _ => true
  | _ => false

/-- True exactly on metadata-synthesis (product LLM) invocation events. -/
def Event.isSynthesize : Event → Bool
  | .synthesize _ => true
  | _ => false

/-- True exactly on comment-post events. -/
def Event.isComment : Event → Bool
  | .comment _ _ => true
  | _ => false

/-- Embeds `JiraAgentManager._llm_check_ticket_match`. The Python
`if not llm_result` treats both `None` and the empty string as falsy,
and `result == 'True' if result else False` likewise yields `False` for
an absent or empty extraction; exceptions are caught and yield `False`. -/
def llm_check_ticket_match (env : Env) (ticket1 ticket2 : String) : Bool :=
  match env.llm_linking
      ("<ticket1>" ++ ticket1 ++ "<ticket1><ticket2>" ++ ticket2 ++ "<ticket2>") with
  | none => false
  | some llm_result =>
    if llm_result = "" then false
    else
      match extract_tag_helper llm_result "related" with
      | none => false
      | some result => if result = "" then false else result == "True"

/-- Embeds `JiraAgentManager._check_issue_and_link_helper` as the trace
of one pool task: the short-circuit `key != primary and _llm_check...`
dispatches the relatedness check only for a non-primary key, and a
positive answer triggers the link call (whose exceptions the helper
catches without affecting the trace before them). -/
def check_issue_and_link_helper (env : Env)
    (args : String × String × String × String) : List Event :=
  match args with
  | (key, data, primary_issue_key, primary_issue_data) =>
    if key ≠ primary_issue_key then
      if llm_check_ticket_match env primary_issue_data data then
        [Event.check primary_issue_key key, Event.link primary_issue_key key]
      else
        [Event.check primary_issue_key key]
    else []

/-- Embeds `JiraAgentManager._find_related_tickets`: build the argument
tuples from the corpus and fan the helper out over the pool; the trace
is the concatenation of the per-task traces. -/
def find_related_tickets (env : Env) (primary_issue_key primary_issue_data : String)
    (issues : List (String × String)) : List Event :=
  let args := issues.map (fun kd => (kd.1, kd.2, primary_issue_key, primary_issue_data))
  (args.map (check_issue_and_link_helper env)).flatten

/-- Embeds `JiraAgentManager._generate_ticket_metadata`: one product-LLM
invocation; on a truthy result the four tags are extracted (Python's
`x or ''` is `Option.getD ""` here, since an extracted empty string is
falsy and is replaced by the same empty string) and the fixed four-line
comment is posted. -/
def generate_ticket_metadata (env : Env)
    (primary_issue_key primary_issue_data : String) : List Event :=
  match env.llm_product ("<description>" ++ primary_issue_data ++ "<description>") with
  | none => [Event.synthesize primary_issue_data]
  | some llm_result =>
    if llm_result = "" then [Event.synthesize primary_issue_data]
    else
      let user_stories := (extract_tag_helper llm_result "user_stories").getD ""
      let acceptance_criteria := (extract_tag_helper llm_result "acceptance_criteria").getD ""
      let priority := (extract_tag_helper llm_result "priority").getD ""
      let thought := (extract_tag_helper llm_result "thought").getD ""
      let comment :=
        "user_stories: " ++ user_stories ++ "\n" ++
        "acceptance_criteria: " ++ acceptance_criteria ++ "\n" ++
        "priority: " ++ priority ++ "\n" ++
        "thought: " ++ thought
      [Event.synthesize primary_issue_data,
       Event.comment primary_issue_key comment]

/-- Embeds `JiraAgentManager._triage_tool`: returns the status string
handed back to the agent together with the trace of observable calls.
Python's `if not all_tickets` covers both a failed fetch (`None`) and an
empty corpus with the same early return. -/
def triage_tool (env : Env) (ticket_number : String) : String × List Event :=
  match env.get_all_tickets with
  | none => ("No tickets found for triage", [])
  | some all_tickets =>
    if all_tickets.isEmpty then ("No tickets found for triage", [])
    else
      match env.get_ticket_data ticket_number with
      | none => ("Could not retrieve data for ticket: " ++ ticket_number, [])
      | some (primary_issue_key, primary_issue_data) =>
        ("Task complete",
          find_related_tickets env primary_issue_key primary_issue_data all_tickets
            ++ generate_ticket_metadata env primary_issue_key primary_issue_data)

/-! ## LLM task wrapper (`model_utils.LLMTask`)

`LLMTask.run_llm` lazily builds `self._chain = self.construct_prompt() |
self.llm` on the first call and caches it in the `_chain` attribute.
The chain is embedded as the pair (prompt template, LLM handle), the
LLM handle as an opaque `Nat`, and the invocation of a chain as an
oracle parameter; `run_llm` returns the invocation result together with
the (possibly mutated) task instance. -/

/-- Prompt template produced by `LLMTask.construct_prompt`: the system
prompt together with the ordered few-shot examples. -/
structure ChatPromptTemplate where
  system_prompt : String
  examples : List (String × String)
deriving DecidableEq

/-- Embeds the `LLMTask` instance state; `chain` is the `_chain`
attribute, `none` right after `__init__`. -/
structure LLMTask where
  system_prompt : String
  examples : List (String × String)
  llm : Nat
  chain : Option (ChatPromptTemplate × Nat)
deriving DecidableEq

/-- Embeds `LLMTask.construct_prompt`. -/
def construct_prompt (t : LLMTask) : ChatPromptTemplate :=
  { system_prompt := t.system_prompt, examples := t.examples }

/-- Embeds `LLMTask.run_llm`: builds and caches the chain when `_chain`
is `None`, then invokes it; `invoke` returning `none` models both an
absent answer and an exception (caught and converted to `None`). -/
def run_llm (invoke : ChatPromptTemplate × Nat → String → Option String)
    (t : LLMTask) (input_text : String) : Option String × LLMTask :=
  match t.chain with
  | some c => (invoke c input_text, t)
  | none =>
    let c := (construct_prompt t, t.llm)
    (invoke c input_text, { t with chain := some c })

/-! ## Jira HTTP layer (`jira_utils._make_request`, `get_all_tickets`)

The HTTP transport is abstracted by an `HttpOutcome` oracle value for
the one request a call performs: `netErr` models `requests.request`
raising (unreachable host, timeout, connection error), and `resp status
body` a completed HTTP exchange, where `body = none` models a payload
`response.json()` cannot parse. `requests.Response.raise_for_status`
raises `HTTPError` exactly for status codes in `[400, 600)`, which
`_make_request` converts to `JiraAPIError`. The embedding assumes the
environment variables are configured (otherwise every call fails with
`JiraConfigError` before reaching the transport). -/

/-- Error kinds of `jira_utils`: `api` is `JiraAPIError` (the tracker
error), `config` is `JiraConfigError`. -/
inductive JiraError where
  | api (msg : String)
  | config (msg : String)
deriving DecidableEq

/-- One issue object of the search response JSON, as read by
`parse_jira_issue_fields`: the `key` field and the `summary` /
`description` entries of the `fields` object, each absent-able. -/
structure IssueJson where
  key : Option String
  summary : Option String
  description : Option String
deriving DecidableEq

/-- Body of the search response: the `issues` array, `none` when the
key is absent (Python defaults it to `[]`). -/
structure SearchBody where
  issues : Option (List IssueJson)
deriving DecidableEq

/-- Transport-level outcome of the single HTTP request of a call. -/
inductive HttpOutcome where
  | netErr (msg : String)
  | resp (status : Nat) (body : Option SearchBody)
deriving DecidableEq

/-- Embeds `jira_utils._make_request` (given the transport outcome of
its request): any `requests` exception, including the `HTTPError` from
`raise_for_status` on a status in `[400, 600)`, becomes `JiraAPIError`. -/
def make_request (outcome : HttpOutcome) : Except JiraError (Nat × Option SearchBody) :=
  match outcome with
  | .netErr msg => .error (.api ("Jira API request failed: " ++ msg))
  | .resp status body =>
    if 400 ≤ status ∧ status < 600 then
      .error (.api ("Jira API request failed: status " ++ toString status))
    else
      .ok (status, body)

/-- Embeds `jira_utils.parse_jira_issue_fields`: a missing or falsy
(empty) `key` raises `JiraAPIError`; `summary` and `description`
default to the empty string and are joined with a space and stripped. -/
def parse_jira_issue_fields (data : IssueJson) : Except JiraError (String × String) :=
  match data.key with
  | none => .error (.api "Missing 'key' field in Jira response")
  | some key =>
    if key = "" then .error (.api "Missing 'key' field in Jira response")
    else
      .ok (key, ((data.summary.getD "") ++ " " ++ (data.description.getD "")).trim)

/-- Python dict assignment `tickets[key] = description`: overwrite in
place when the key is present, append otherwise. -/
def dictInsert (d : List (String × String)) (key value : String) : List (String × String) :=
  if d.any (fun kv => kv.1 = key) then
    d.map (fun kv => if kv.1 = key then (key, value) else kv)
  else d ++ [(key, value)]

/-- Embeds `jira_utils.get_all_tickets` (given the transport outcome of
its search request): `none` on any failure (request error, non-success
status, unparsable body), otherwise the key → description mapping built
from the `issues` array, skipping entries `parse_jira_issue_fields`
rejects. -/
def get_all_tickets (outcome : HttpOutcome) : Option (List (String × String)) :=
  match make_request outcome with
  | .error _ => none
  | .ok (_, body) =>
    match body with
    | none => none
    | some data =>
      some ((data.issues.getD []).foldl (fun tickets issue =>
        match parse_jira_issue_fields issue with
        | .error _ => tickets
        | .ok (key, description) => dictInsert tickets key description) [])

/-! ## Trace lemmas for the orchestration -/

lemma find_related_tickets_nil (env : Env) (pk pd : String) :
    find_related_tickets env pk pd [] = [] := rfl

lemma find_related_tickets_cons (env : Env) (pk pd k d : String)
    (rest : List (String × String)) :
    find_related_tickets env pk pd ((k, d) :: rest) =
      check_issue_and_link_helper env (k, d, pk, pd) ++ find_related_tickets env pk pd rest := by
  simp [find_related_tickets]

lemma generate_ticket_metadata_shape (env : Env) (pk pd : String) :
    generate_ticket_metadata env pk pd = [Event.synthesize pd] ∨
    ∃ c, generate_ticket_metadata env pk pd =
      [Event.synthesize pd, Event.comment pk c] := by
  unfold generate_ticket_metadata
  cases env.llm_product ("<description>" ++ pd ++ "<description>") with
  | none => exact Or.inl rfl
  | some r =>
    by_cases hr : r = ""
    · simp [hr]
    · simp only [if_neg hr]
      exact Or.inr ⟨_, rfl⟩

lemma count_link_generate (env : Env) (pk pd p s : String) :
    (generate_ticket_metadata env pk pd).count (Event.link p s) = 0 := by
  rcases generate_ticket_metadata_shape env pk pd with h | ⟨c, h⟩ <;>
    simp [h, List.count_cons]

lemma count_link_helper (env : Env) (pk pd k' d' k : String) :
    (check_issue_and_link_helper env (k', d', pk, pd)).count (Event.link pk k) =
      if k' = k ∧ k' ≠ pk ∧ llm_check_ticket_match env pd d' = true then 1 else 0 := by
  unfold check_issue_and_link_helper
  by_cases h1 : k' = pk
  · simp [h1]
  · simp only [ne_eq, h1, not_false_iff, if_true]
    by_cases h2 : llm_check_ticket_match env pd d' = true
    · by_cases h3 : k' = k <;> simp [h2, h3, List.count_cons, h1]
    · by_cases h3 : k' = k <;> simp [h2, h3, List.count_cons]

lemma count_link_pp_helper (env : Env) (pk pd k' d' p : String) :
    (check_issue_and_link_helper env (k', d', pk, pd)).count (Event.link p p) = 0 := by
  unfold check_issue_and_link_helper
  by_cases h1 : k' = pk
  · simp [h1]
  · by_cases h2 : llm_check_ticket_match env pd d' = true
    all_goals simp_all [List.count_cons]
    rintro rfl rfl
    exact h1 rfl

lemma count_link_pp_find (env : Env) (pk pd p : String)
    (issues : List (String × String)) :
    (find_related_tickets env pk pd issues).count (Event.link p p) = 0 := by
  induction issues with
  | nil => rfl
  | cons kd rest ih =>
    rw [show kd = (kd.1, kd.2) from rfl, find_related_tickets_cons, List.count_append,
      count_link_pp_helper, ih]

lemma count_link_find_of_not_mem (env : Env) (pk pd k : String)
    {issues : List (String × String)} (h : k ∉ issues.map Prod.fst) :
    (find_related_tickets env pk pd issues).count (Event.link pk k) = 0 := by
  induction issues with
  | nil => rfl
  | cons kd rest ih =>
    have h1 : ¬ (kd.1 = k) := fun hk => h (by simp [hk])
    have h2 : k ∉ rest.map Prod.fst := fun hk => h (by simp; right; simpa using hk)
    rw [show kd = (kd.1, kd.2) from rfl, find_related_tickets_cons, List.count_append,
      count_link_helper, ih h2]
    simp [h1]

lemma count_link_find_of_mem (env : Env) (pk pd : String)
    {issues : List (String × String)} (hnd : (issues.map Prod.fst).Nodup)
    {k d : String} (hmem : (k, d) ∈ issues) :
    (find_related_tickets env pk pd issues).count (Event.link pk k) =
      if k ≠ pk ∧ llm_check_ticket_match env pd d = true then 1 else 0 := by
  induction issues with
  | nil => cases hmem
  | cons kd rest ih =>
    rw [show kd = (kd.1, kd.2) from rfl, find_related_tickets_cons, List.count_append,
      count_link_helper]
    rw [List.map_cons, List.nodup_cons] at hnd
    rcases List.mem_cons.mp hmem with heq | hmem'
    · have hk : kd.1 = k := by rw [← heq]
      have hd : kd.2 = d := by rw [← heq]
      have hnotin : k ∉ rest.map Prod.fst := by rw [← hk]; exact hnd.1
      rw [count_link_find_of_not_mem env pk pd k hnotin, hk, hd]
      simp
    · have hne : ¬ (kd.1 = k) := by
        intro hk
        exact hnd.1 (hk ▸ List.mem_map_of_mem Prod.fst hmem')
      rw [ih hnd.2 hmem']
      simp [hne]

lemma link_mem_find (env : Env) (pk pd p s : String)
    (issues : List (String × String))
    (h : Event.link p s ∈ find_related_tickets env pk pd issues) :
    p = pk ∧ s ≠ pk ∧ ∃ d, (s, d) ∈ issues ∧ llm_check_ticket_match env pd d = true := by
  induction issues with
  | nil => cases h
  | cons kd rest ih =>
    rw [show kd = (kd.1, kd.2) from rfl, find_related_tickets_cons, List.mem_append] at h
    rcases h with h | h
    · by_cases h1 : kd.1 = pk
      · simp [check_issue_and_link_helper, h1] at h
      · by_cases h2 : llm_check_ticket_match env pd kd.2 = true
        · simp [check_issue_and_link_helper, h1, h2] at h
          obtain ⟨hp, hs⟩ := h
          exact ⟨hp, by rw [hs]; exact h1, kd.2,
            by rw [hs]; exact List.mem_cons_self _ _, h2⟩
        · simp [check_issue_and_link_helper, h1, h2] at h
    · obtain ⟨hp, hs, d, hd, hm⟩ := ih h
      exact ⟨hp, hs, d, List.mem_cons_of_mem _ hd, hm⟩

lemma countP_check_helper (env : Env) (pk pd k' d' : String) :
    (check_issue_and_link_helper env (k', d', pk, pd)).countP Event.isCheck =
      if k' = pk then 0 else 1 := by
  unfold check_issue_and_link_helper
  by_cases h1 : k' = pk
  · simp [h1]
  · by_cases h2 : llm_check_ticket_match env pd d' = true
    all_goals simp [h1, h2, List.countP_cons, Event.isCheck, Event.isLink]

lemma countP_check_find (env : Env) (pk pd : String)
    (issues : List (String × String)) :
    (find_related_tickets env pk pd issues).countP Event.isCheck =
      issues.length - (issues.map Prod.fst).count pk := by
  induction issues with
  | nil => rfl
  | cons kd rest ih =>
    have hle : (rest.map Prod.fst).count pk ≤ rest.length := by
      have := List.count_le_length pk (rest.map Prod.fst)
      simpa using this
    rw [show kd = (kd.1, kd.2) from rfl, find_related_tickets_cons, List.countP_append,
      countP_check_helper, ih, List.map_cons, List.count_cons]
    simp only [List.length_cons]
    by_cases h1 : kd.1 = pk
    · rw [if_pos h1, if_pos (by simpa using h1)]
      omega
    · rw [if_neg h1, if_neg (by simpa using h1)]
      omega

lemma count_of_nodup {l : List String} (hnd : l.Nodup) (a : String) :
    l.count a = if a ∈ l then 1 else 0 := by
  by_cases h : a ∈ l
  · rw [if_pos h]
    exact List.count_eq_one_of_mem hnd h
  · rw [if_neg h]
    exact List.count_eq_zero_of_not_mem h

lemma count_check_pp_helper (env : Env) (pk pd k' d' : String) :
    (check_issue_and_link_helper env (k', d', pk, pd)).count (Event.check pk pk) = 0 := by
  unfold check_issue_and_link_helper
  by_cases h1 : k' = pk
  · simp [h1]
  · by_cases h2 : llm_check_ticket_match env pd d' = true
    all_goals simp_all [List.count_cons]

lemma count_check_pp_find (env : Env) (pk pd : String)
    (issues : List (String × String)) :
    (find_related_tickets env pk pd issues).count (Event.check pk pk) = 0 := by
  induction issues with
  | nil => rfl
  | cons kd rest ih =>
    rw [show kd = (kd.1, kd.2) from rfl, find_related_tickets_cons, List.count_append,
      count_check_pp_helper, ih]

lemma count_check_generate (env : Env) (pk pd p s : String) :
    (generate_ticket_metadata env pk pd).count (Event.check p s) = 0 := by
  rcases generate_ticket_metadata_shape env pk pd with h | ⟨c, h⟩
  all_goals simp [h, List.count_cons]

lemma countP_check_generate (env : Env) (pk pd : String) :
    (generate_ticket_metadata env pk pd).countP Event.isCheck = 0 := by
  rcases generate_ticket_metadata_shape env pk pd with h | ⟨c, h⟩
  all_goals simp [h, List.countP_cons, Event.isCheck]

lemma countP_synthesize_generate (env : Env) (pk pd : String) :
    (generate_ticket_metadata env pk pd).countP Event.isSynthesize = 1 := by
  rcases generate_ticket_metadata_shape env pk pd with h | ⟨c, h⟩
  all_goals simp [h, List.countP_cons, Event.isSynthesize]

lemma helper_events_shape (env : Env) (pk pd k' d' : String) :
    ∀ e ∈ check_issue_and_link_helper env (k', d', pk, pd),
      e.isCheck = true ∨ e.isLink = true := by
  unfold check_issue_and_link_helper
  by_cases h1 : k' = pk
  · simp [h1]
  · by_cases h2 : llm_check_ticket_match env pd d' = true
    all_goals intro e he
    all_goals simp_all [Event.isCheck, Event.isLink]
    all_goals rcases he with rfl | rfl
    all_goals simp [Event.isCheck, Event.isLink]

lemma find_events_shape (env : Env) (pk pd : String)
    (issues : List (String × String)) :
    ∀ e ∈ find_related_tickets env pk pd issues,
      e.isCheck = true ∨ e.isLink = true := by
  induction issues with
  | nil => intro e he; cases he
  | cons kd rest ih =>
    intro e he
    rw [show kd = (kd.1, kd.2) from rfl, find_related_tickets_cons, List.mem_append] at he
    rcases he with he | he
    · exact helper_events_shape env pk pd kd.1 kd.2 e he
    · exact ih e he

lemma generate_events_shape (env : Env) (pk pd : String) :
    ∀ e ∈ generate_ticket_metadata env pk pd,
      e.isSynthesize = true ∨ e.isComment = true := by
  rcases generate_ticket_metadata_shape env pk pd with h | ⟨c, h⟩
  all_goals rw [h]
  all_goals intro e he
  all_goals simp_all
  · simp [he, Event.isSynthesize]
  · rcases he with rfl | rfl
    all_goals simp [Event.isSynthesize, Event.isComment]

lemma countP_synthesize_find (env : Env) (pk pd : String)
    (issues : List (String × String)) :
    (find_related_tickets env pk pd issues).countP Event.isSynthesize = 0 := by
  rw [List.countP_eq_zero]
  intro e he
  rcases find_events_shape env pk pd issues e he with h | h
  all_goals cases e
  all_goals simp_all [Event.isCheck, Event.isLink, Event.isSynthesize]

lemma triage_tool_empty_trace (env : Env) (ticket_number : String)
    (h : env.get_all_tickets = some []) :
    triage_tool env ticket_number = ("No tickets found for triage", []) := by
  simp [triage_tool, h]

lemma triage_tool_trace (env : Env) (ticket_number : String)
    {issues : List (String × String)} {pk pd : String}
    (hall : env.get_all_tickets = some issues) (hne : issues ≠ [])
    (ht : env.get_ticket_data ticket_number = some (pk, pd)) :
    triage_tool env ticket_number =
      ("Task complete",
        find_related_tickets env pk pd issues ++ generate_ticket_metadata env pk pd) := by
  simp only [triage_tool, hall, ht]
  rw [if_neg (by simpa using hne)]

lemma triage_tool_none (env : Env) (ticket_number : String)
    (h : env.get_all_tickets = none) :
    triage_tool env ticket_number = ("No tickets found for triage", []) := by
  simp [triage_tool, h]

lemma triage_tool_no_ticket (env : Env) (ticket_number : String)
    {issues : List (String × String)}
    (hall : env.get_all_tickets = some issues) (hne : issues ≠ [])
    (ht : env.get_ticket_data ticket_number = none) :
    triage_tool env ticket_number =
      ("Could not retrieve data for ticket: " ++ ticket_number, []) := by
  simp only [triage_tool, hall, ht]
  rw [if_neg (by simpa using hne)]

/-- Concrete oracle used by witnesses: a two-ticket corpus whose first
entry is the triage target, a linking LLM that always answers related,
and a product LLM that emits only a priority tag. -/
def envW : Env where
  get_all_tickets := some [("T-1", "a"), ("T-2", "b")]
  get_ticket_data := fun _ => some ("T-1", "a")
  llm_linking := fun _ => some "<related>True<related>"
  llm_product := fun _ => some "<priority>High<priority>"

/-- Concrete oracle whose corpus fetch returns an empty mapping. -/
def envE : Env where
  get_all_tickets := some []
  get_ticket_data := fun _ => none
  llm_linking := fun _ => none
  llm_product := fun _ => none

/-- C1: over a corpus with pairwise distinct keys (a Python dict cannot
hold duplicates), one triage run emits the link call `link pk k` exactly
once for every corpus member `k ≠ pk` the classifier reports related,
and every link call of the run targets such a member — no duplicates and
no links for non-members. -/
theorem triage_links_exactly_related (env : Env) (ticket_number : String)
    (issues : List (String × String)) (pk pd : String)
    (hall : env.get_all_tickets = some issues)
    (hnd : (issues.map Prod.fst).Nodup)
    (ht : env.get_ticket_data ticket_number = some (pk, pd)) :
    (∀ k d, (k, d) ∈ issues →
      ((triage_tool env ticket_number).2).count (Event.link pk k) =
        if k ≠ pk ∧ llm_check_ticket_match env pd d = true then 1 else 0) ∧
    (∀ p s, Event.link p s ∈ (triage_tool env ticket_number).2 →
      p = pk ∧ s ≠ pk ∧ ∃ d, (s, d) ∈ issues ∧ llm_check_ticket_match env pd d = true) := by
  by_cases hne : issues = []
  · subst hne
    rw [triage_tool_empty_trace env ticket_number hall]
    constructor
    · intro k d hmem
      cases hmem
    · intro p s hmem
      cases hmem
  · have htr2 : (triage_tool env ticket_number).2 =
        find_related_tickets env pk pd issues ++ generate_ticket_metadata env pk pd := by
      rw [triage_tool_trace env ticket_number hall hne ht]
    constructor
    · intro k d hmem
      rw [htr2, List.count_append, count_link_find_of_mem env pk pd hnd hmem,
        count_link_generate, Nat.add_zero]
    · intro p s hmem
      rw [htr2, List.mem_append] at hmem
      rcases hmem with hmem | hmem
      · exact link_mem_find env pk pd p s issues hmem
      · exfalso
        rcases generate_events_shape env pk pd _ hmem with hbad | hbad
        · simp [Event.isSynthesize] at hbad
        · simp [Event.isComment] at hbad

theorem triage_links_exactly_related_witness :
    ((triage_tool envW "T-1").2).count (Event.link "T-1" "T-2") = 1 ∧
    ((triage_tool envW "T-1").2).count (Event.link "T-1" "T-1") = 0 := by
  have h := triage_links_exactly_related envW "T-1" [("T-1", "a"), ("T-2", "b")] "T-1" "a"
    rfl (by decide) rfl
  constructor
  · rw [h.1 "T-2" "b" (by decide)]
    rw [if_pos ⟨by decide, by decide⟩]
  · rw [h.1 "T-1" "a" (by decide)]
    rw [if_neg (by simp)]

/-- C2: no triage run ever emits a link call whose two endpoints are the
same ticket key — a ticket is never linked to itself. -/
theorem triage_never_links_self (env : Env) (ticket_number p : String) :
    ((triage_tool env ticket_number).2).count (Event.link p p) = 0 := by
  rcases hall : env.get_all_tickets with _ | issues
  · rw [triage_tool_none env ticket_number hall]
    rfl
  · by_cases hne : issues = []
    · subst hne
      rw [triage_tool_empty_trace env ticket_number hall]
      rfl
    · rcases ht : env.get_ticket_data ticket_number with _ | kd
      · rw [triage_tool_no_ticket env ticket_number hall hne ht]
        rfl
      · obtain ⟨pk, pd⟩ := kd
        have htr2 : (triage_tool env ticket_number).2 =
            find_related_tickets env pk pd issues ++ generate_ticket_metadata env pk pd := by
          rw [triage_tool_trace env ticket_number hall hne ht]
        rw [htr2, List.count_append, count_link_pp_find, count_link_generate]

/-- C3: one triage run dispatches exactly `N - (1 if the target key is
in the corpus else 0)` relatedness checks over a corpus of `N` tickets
with distinct keys, and never dispatches a check of the target against
itself. -/
theorem triage_check_count (env : Env) (ticket_number : String)
    (issues : List (String × String)) (pk pd : String)
    (hall : env.get_all_tickets = some issues)
    (hnd : (issues.map Prod.fst).Nodup)
    (ht : env.get_ticket_data ticket_number = some (pk, pd)) :
    ((triage_tool env ticket_number).2).countP Event.isCheck =
      issues.length - (if pk ∈ issues.map Prod.fst then 1 else 0) ∧
    ((triage_tool env ticket_number).2).count (Event.check pk pk) = 0 := by
  by_cases hne : issues = []
  · subst hne
    rw [triage_tool_empty_trace env ticket_number hall]
    exact ⟨by simp, rfl⟩
  · have htr2 : (triage_tool env ticket_number).2 =
        find_related_tickets env pk pd issues ++ generate_ticket_metadata env pk pd := by
      rw [triage_tool_trace env ticket_number hall hne ht]
    constructor
    · rw [htr2, List.countP_append, countP_check_find, countP_check_generate, Nat.add_zero]
      congr 1
      exact count_of_nodup hnd pk
    · rw [htr2, List.count_append, count_check_pp_find, count_check_generate]

theorem triage_check_count_witness :
    ((triage_tool envW "T-1").2).countP Event.isCheck = 1 ∧
    ((triage_tool envW "T-1").2).count (Event.check "T-1" "T-1") = 0 := by
  have h := triage_check_count envW "T-1" [("T-1", "a"), ("T-2", "b")] "T-1" "a"
    rfl (by decide) rfl
  refine ⟨?_, h.2⟩
  rw [h.1]
  decide

/-- C6: a successfully fetched but empty open-ticket corpus makes the
triage run return the "No tickets found for triage" status string (an
ordinary return value, not an exception — `triage_tool` is total) with
an empty trace: zero link calls and zero comment calls. -/
theorem triage_empty_corpus (env : Env) (ticket_number : String)
    (h : env.get_all_tickets = some []) :
    (triage_tool env ticket_number).1 = "No tickets found for triage" ∧
    ((triage_tool env ticket_number).2).countP Event.isLink = 0 ∧
    ((triage_tool env ticket_number).2).countP Event.isComment = 0 ∧
    (triage_tool env ticket_number).2 = [] := by
  rw [triage_tool_empty_trace env ticket_number h]
  exact ⟨rfl, rfl, rfl, rfl⟩

theorem triage_empty_corpus_witness :
    (triage_tool envE "T-9").1 = "No tickets found for triage" ∧
    ((triage_tool envE "T-9").2).countP Event.isLink = 0 ∧
    ((triage_tool envE "T-9").2).countP Event.isComment = 0 ∧
    (triage_tool envE "T-9").2 = [] :=
  triage_empty_corpus envE "T-9" rfl

/-- C4: the pairwise relatedness check returns `true` iff the linking
LLM produced an output from which the `<related>` tag extracts exactly
the literal string `"True"`. An absent LLM result (which is also how an
exception raised by the LLM call surfaces, since `run_llm` catches it
and returns `None`), an absent extraction, or any other extracted value
yields `false`; the embedded function is total, so no exception
propagates out of the check. -/
theorem llm_check_ticket_match_iff (env : Env) (ticket1 ticket2 : String) :
    llm_check_ticket_match env ticket1 ticket2 = true ↔
      ∃ r, env.llm_linking
            ("<ticket1>" ++ ticket1 ++ "<ticket1><ticket2>" ++ ticket2 ++ "<ticket2>")
          = some r ∧
        extract_tag_helper r "related" = some "True" := by
  unfold llm_check_ticket_match
  cases h : env.llm_linking
      ("<ticket1>" ++ ticket1 ++ "<ticket1><ticket2>" ++ ticket2 ++ "<ticket2>") with
  | none => simp [h]
  | some r =>
    simp only [h, Option.some.injEq]
    by_cases hr : r = ""
    · subst hr
      have he : extract_tag_helper "" "related" = none := by decide
      simp [he]
    · rw [if_neg hr]
      cases he : extract_tag_helper r "related" with
      | none => simp [he]
      | some v =>
        by_cases hv : v = ""
        · subst hv
          simp [he]
        · simp [he, hv]

theorem llm_check_ticket_match_iff_witness :
    llm_check_ticket_match envW "a" "b" = true :=
  (llm_check_ticket_match_iff envW "a" "b").mpr ⟨"<related>True<related>", rfl, by decide⟩

/-- C5: metadata synthesis posts the fixed four-line comment in which
each of the four tags defaults to the empty string when extraction
fails, skips the comment post when the product LLM returns no output,
and in either case a triage run that reaches this phase still finishes
with the "Task complete" status. -/
theorem generate_ticket_metadata_spec (env : Env) (pk pd : String) :
    (∀ r, env.llm_product ("<description>" ++ pd ++ "<description>") = some r → r ≠ "" →
      generate_ticket_metadata env pk pd =
        [Event.synthesize pd,
         Event.comment pk
           ("user_stories: " ++ ((extract_tag_helper r "user_stories").getD "") ++ "\n" ++
            "acceptance_criteria: " ++
              ((extract_tag_helper r "acceptance_criteria").getD "") ++ "\n" ++
            "priority: " ++ ((extract_tag_helper r "priority").getD "") ++ "\n" ++
            "thought: " ++ ((extract_tag_helper r "thought").getD ""))]) ∧
    (env.llm_product ("<description>" ++ pd ++ "<description>") = none →
      generate_ticket_metadata env pk pd = [Event.synthesize pd]) ∧
    (∀ ticket_number issues, env.get_all_tickets = some issues → issues ≠ [] →
      env.get_ticket_data ticket_number = some (pk, pd) →
      (triage_tool env ticket_number).1 = "Task complete") := by
  refine ⟨?_, ?_, ?_⟩
  · intro r h hr
    unfold generate_ticket_metadata
    rw [h]
    simp only [if_neg hr]
  · intro h
    unfold generate_ticket_metadata
    rw [h]
  · intro ticket_number issues hall hne ht
    rw [triage_tool_trace env ticket_number hall hne ht]

theorem generate_ticket_metadata_spec_witness :
    generate_ticket_metadata envW "T-1" "a" =
      [Event.synthesize "a",
       Event.comment "T-1"
         "user_stories: \nacceptance_criteria: \npriority: High\nthought: "] ∧
    (triage_tool envW "T-1").1 = "Task complete" := by
  have h := generate_ticket_metadata_spec envW "T-1" "a"
  constructor
  · rw [h.1 "<priority>High<priority>" rfl (by decide)]
    decide
  · exact h.2.2 "T-1" [("T-1", "a"), ("T-2", "b")] rfl (by decide) rfl

/-- C7: in a run that reaches the link phase, the trace is the
relatedness phase (check and link events only) followed, after the
worker pool's join, by the metadata phase (synthesize and comment
events only), and the metadata-synthesis LLM invocation occurs exactly
once per run, entirely inside the second segment — so no metadata side
effect appears among the relatedness workers' events. -/
theorem triage_metadata_after_join (env : Env) (ticket_number : String)
    (issues : List (String × String)) (pk pd : String)
    (hall : env.get_all_tickets = some issues)
    (hne : issues ≠ [])
    (ht : env.get_ticket_data ticket_number = some (pk, pd)) :
    (triage_tool env ticket_number).2 =
      find_related_tickets env pk pd issues ++ generate_ticket_metadata env pk pd ∧
    ((triage_tool env ticket_number).2).countP Event.isSynthesize = 1 ∧
    (find_related_tickets env pk pd issues).countP Event.isSynthesize = 0 ∧
    (∀ e ∈ find_related_tickets env pk pd issues, e.isCheck = true ∨ e.isLink = true) ∧
    (∀ e ∈ generate_ticket_metadata env pk pd,
      e.isSynthesize = true ∨ e.isComment = true) := by
  have htr2 : (triage_tool env ticket_number).2 =
      find_related_tickets env pk pd issues ++ generate_ticket_metadata env pk pd := by
    rw [triage_tool_trace env ticket_number hall hne ht]
  refine ⟨htr2, ?_, countP_synthesize_find env pk pd issues,
    find_events_shape env pk pd issues, generate_events_shape env pk pd⟩
  rw [htr2, List.countP_append, countP_synthesize_find, countP_synthesize_generate]

theorem triage_metadata_after_join_witness :
    ((triage_tool envW "T-1").2).countP Event.isSynthesize = 1 ∧
    (triage_tool envW "T-1").2 =
      find_related_tickets envW "T-1" "a" [("T-1", "a"), ("T-2", "b")] ++
        generate_ticket_metadata envW "T-1" "a" := by
  have h := triage_metadata_after_join envW "T-1" [("T-1", "a"), ("T-2", "b")] "T-1" "a"
    rfl (by decide) rfl
  exact ⟨h.2.1, h.1⟩

/-- C9 counterexample: `run_llm` mutates the task instance on its first
call — the `_chain` field changes from `None` to the freshly constructed
chain — so the claim that every field of a task is unchanged by a run is
false on the code. -/
theorem run_llm_mutates_chain :
    (run_llm (fun _ _ => none)
        { system_prompt := "s", examples := [], llm := 0, chain := none } "x").2 ≠
      { system_prompt := "s", examples := [], llm := 0, chain := none } := by
  decide

/-- C9 amended: `run_llm` leaves `system_prompt`, `examples` and the
LLM handle unchanged on every call; its only mutation is the `_chain`
cache, which the first call sets to the constructed chain and which no
later call changes — once initialized, the instance is a fixed point of
`run_llm`, so it is read-only apart from this one-time lazy
initialization. -/
theorem run_llm_mutation_frame
    (invoke : ChatPromptTemplate × Nat → String → Option String)
    (t : LLMTask) (input_text : String) :
    ((run_llm invoke t input_text).2).system_prompt = t.system_prompt ∧
    ((run_llm invoke t input_text).2).examples = t.examples ∧
    ((run_llm invoke t input_text).2).llm = t.llm ∧
    ((run_llm invoke t input_text).2).chain =
      some (t.chain.getD (construct_prompt t, t.llm)) ∧
    (∀ input2, (run_llm invoke ((run_llm invoke t input_text).2) input2).2 =
      (run_llm invoke t input_text).2) := by
  cases t with
  | mk sp ex llm ch =>
    cases ch with
    | none => exact ⟨rfl, rfl, rfl, rfl, fun _ => rfl⟩
    | some c => exact ⟨rfl, rfl, rfl, rfl, fun _ => rfl⟩

/-- C10: when the backing service is unreachable or answers with a
non-success HTTP status, the request layer fails with the tracker-error
kind (`JiraAPIError`) and the open-ticket search surfaces the failure as
an absent result; a successful response listing zero open tickets (or
lacking the `issues` key, which Python defaults to the empty list)
yields an empty mapping, not a failure. -/
theorem get_all_tickets_error_vs_empty :
    (∀ msg, (∃ e, make_request (HttpOutcome.netErr msg) =
        Except.error (JiraError.api e)) ∧
      get_all_tickets (HttpOutcome.netErr msg) = none) ∧
    (∀ status body, 400 ≤ status → status < 600 →
      (∃ e, make_request (HttpOutcome.resp status body) =
        Except.error (JiraError.api e)) ∧
      get_all_tickets (HttpOutcome.resp status body) = none) ∧
    (∀ status, ¬ (400 ≤ status ∧ status < 600) →
      get_all_tickets (HttpOutcome.resp status (some ⟨some []⟩)) = some [] ∧
      get_all_tickets (HttpOutcome.resp status (some ⟨none⟩)) = some []) := by
  have hmr : ∀ (status : Nat) (body : Option SearchBody),
      make_request (HttpOutcome.resp status body) =
        if 400 ≤ status ∧ status < 600 then
          Except.error
            (JiraError.api ("Jira API request failed: status " ++ toString status))
        else Except.ok (status, body) := fun _ _ => rfl
  refine ⟨fun msg => ⟨⟨_, rfl⟩, rfl⟩, ?_, ?_⟩
  · intro status body h1 h2
    constructor
    · exact ⟨"Jira API request failed: status " ++ toString status,
        by rw [hmr, if_pos ⟨h1, h2⟩]⟩
    · unfold get_all_tickets
      rw [hmr, if_pos ⟨h1, h2⟩]
  · intro status h
    constructor
    · unfold get_all_tickets
      rw [hmr, if_neg h]
      rfl
    · unfold get_all_tickets
      rw [hmr, if_neg h]
      rfl

theorem get_all_tickets_error_vs_empty_witness :
    get_all_tickets (HttpOutcome.netErr "connection refused") = none ∧
    get_all_tickets (HttpOutcome.resp 503 none) = none ∧
    get_all_tickets (HttpOutcome.resp 200 (some ⟨some []⟩)) = some [] := by
  have h := get_all_tickets_error_vs_empty
  exact ⟨(h.1 "connection refused").2, (h.2.1 503 none (by decide) (by decide)).2,
    (h.2.2 200 (by decide)).1⟩

/-! ## Round trip of the tag convention (specification §8) -/

lemma beginsWith_iff (p s : List Char) : beginsWith p s = true ↔ p <+: s := by
  induction p generalizing s with
  | nil => exact iff_of_true rfl ⟨s, rfl⟩
  | cons c cs ih =>
    cases s with
    | nil =>
      constructor
      · intro hb
        exact absurd hb (by simp [beginsWith])
      · rintro ⟨t', ht'⟩
        exact List.noConfusion ht'
    | cons d ds =>
      constructor
      · intro hb
        rw [beginsWith, Bool.and_eq_true] at hb
        obtain ⟨hc, hcs⟩ := hb
        have hc' : c = d := by simpa using hc
        subst hc'
        obtain ⟨t', ht'⟩ := (ih ds).mp hcs
        exact ⟨t', by rw [List.cons_append, ht']⟩
      · rintro ⟨t', ht'⟩
        rw [List.cons_append] at ht'
        injection ht' with h1 h2
        subst h1
        rw [beginsWith, Bool.and_eq_true]
        exact ⟨by simp, (ih ds).mpr ⟨t', h2⟩⟩

lemma firstOcc_some (m s : List Char) (i : Nat) (h : firstOcc m s = some i) :
    beginsWith m (s.drop i) = true ∧
    ∀ k, k < i → beginsWith m (s.drop k) = false := by
  induction s generalizing i with
  | nil => cases h
  | cons c rest ih =>
    rw [firstOcc] at h
    by_cases hb : beginsWith m (c :: rest) = true
    · rw [if_pos hb] at h
      injection h with h'
      subst h'
      exact ⟨hb, fun k hk => absurd hk (Nat.not_lt_zero k)⟩
    · have hb' : beginsWith m (c :: rest) = false := by
        simpa using hb
      rw [if_neg hb] at h
      cases hf : firstOcc m rest with
      | none => rw [hf] at h; cases h
      | some j =>
        rw [hf] at h
        injection h with h'
        subst h'
        obtain ⟨h1, h2⟩ := ih j hf
        refine ⟨by simpa using h1, ?_⟩
        intro k hk
        cases k with
        | zero => simpa using hb'
        | succ k' =>
          have hk' : k' < j := Nat.lt_of_succ_lt_succ hk
          simpa using h2 k' hk'

lemma firstOcc_complete (m s : List Char) (i : Nat) (hm : m ≠ [])
    (h : beginsWith m (s.drop i) = true) :
    ∃ j, j ≤ i ∧ firstOcc m s = some j := by
  induction s generalizing i with
  | nil =>
    exfalso
    rw [List.drop_nil] at h
    cases m with
    | nil => exact hm rfl
    | cons c cs => exact absurd h (by simp [beginsWith])
  | cons c rest ih =>
    rw [firstOcc]
    by_cases hb : beginsWith m (c :: rest) = true
    · exact ⟨0, Nat.zero_le i, by rw [if_pos hb]⟩
    · rw [if_neg hb]
      cases i with
      | zero =>
        rw [List.drop_zero] at h
        exact absurd h hb
      | succ i' =>
        rw [List.drop_succ_cons] at h
        obtain ⟨j, hj, hf⟩ := ih i' h
        exact ⟨j + 1, Nat.succ_le_succ hj, by rw [hf]; rfl⟩

lemma firstOcc_self_append (m x : List Char) (hm : m ≠ []) :
    firstOcc m (m ++ x) = some 0 := by
  have hb : beginsWith m (m ++ x) = true := (beginsWith_iff _ _).mpr ⟨x, rfl⟩
  cases m with
  | nil => exact absurd rfl hm
  | cons c cs =>
    rw [List.cons_append, firstOcc, if_pos (by rw [← List.cons_append]; exact hb)]

lemma firstOcc_append_right (m s : List Char) (hm : m ≠ [])
    (h : ∀ k, k < s.length → beginsWith m ((s ++ m).drop k) = false) :
    firstOcc m (s ++ m) = some s.length := by
  have hstart : beginsWith m ((s ++ m).drop s.length) = true := by
    rw [List.drop_left]
    exact (beginsWith_iff m m).mpr ⟨[], List.append_nil m⟩
  obtain ⟨j, hj, hf⟩ := firstOcc_complete m (s ++ m) s.length hm hstart
  rcases Nat.lt_or_ge j s.length with hlt | hge
  · obtain ⟨h1, _⟩ := firstOcc_some m (s ++ m) j hf
    rw [h j hlt] at h1
    cases h1
  · have hj' : j = s.length := Nat.le_antisymm hj hge
    rw [← hj']
    exact hf

/-- C8 counterexample: the unrestricted round trip fails — wrapping a
string that itself contains the literal marker makes the lazy close
match the first marker occurrence inside the wrapped payload, so
extraction does not return the payload. -/
theorem extract_wrap_roundtrip_fails :
    extract_tag_helper (wrap "<t>" "t") "t" ≠ some "<t>" := by
  decide

/-- C8 amended: the round trip `extract (wrap a t) t = a` holds under
the proviso the counterexample forces — the literal marker `<t>` must
not occur in `a ++ "<t>"` at any position before the end of `a` (for an
ordinary tag containing no angle brackets this just says `a` does not
contain the marker); without it the lazy close match ends inside `a`. -/
theorem extract_wrap_roundtrip (a t : String)
    (h : ∀ k, k < a.toList.length →
      beginsWith (("<" ++ t ++ ">").toList)
        ((a.toList ++ ("<" ++ t ++ ">").toList).drop k) = false) :
    extract_tag_helper (wrap a t) t = some a := by
  have hm : ("<" ++ t ++ ">").toList ≠ [] := by
    show ("<" ++ t ++ ">").data ≠ []
    rw [String.data_append, String.data_append]
    simp
  have hw : (wrap a t).toList =
      ("<" ++ t ++ ">").toList ++ (a.toList ++ ("<" ++ t ++ ">").toList) := by
    show (wrap a t).data =
      ("<" ++ t ++ ">").data ++ (a.data ++ ("<" ++ t ++ ">").data)
    unfold wrap
    simp [List.append_assoc]
  have h0 : firstOcc (("<" ++ t ++ ">").toList)
      ((("<" ++ t ++ ">").toList) ++ (a.toList ++ ("<" ++ t ++ ">").toList)) = some 0 :=
    firstOcc_self_append _ _ hm
  have h1 : firstOcc (("<" ++ t ++ ">").toList)
      (a.toList ++ ("<" ++ t ++ ">").toList) = some a.toList.length :=
    firstOcc_append_right _ _ hm h
  have hdrop : ((("<" ++ t ++ ">").toList) ++ (a.toList ++ ("<" ++ t ++ ">").toList)).drop
      (0 + (("<" ++ t ++ ">").toList).length) = a.toList ++ ("<" ++ t ++ ">").toList := by
    rw [Nat.zero_add, List.drop_left]
  have htake : (a.toList ++ ("<" ++ t ++ ">").toList).take a.toList.length = a.toList :=
    List.take_left _ _
  simp only [extract_tag_helper, hw, h0, hdrop, h1, htake]
  rfl

theorem extract_wrap_roundtrip_witness :
    extract_tag_helper (wrap "hello" "tag") "tag" = some "hello" :=
  extract_wrap_roundtrip "hello" "tag" (by decide)
